import Mathlib

/-! pizza-apiserver: the PizzaSize admission plugin and the v1beta1 conversion functions

Shallow embedding of

* `pkg/admission/plugin/pizzasize/admission.go` (`PizzaSizePlugin`), and
* `pkg/apis/restaurant/v1beta1/conversion.go` (the two `Convert_*` functions).

Go packages become namespaces.  A Go function that mutates `*out` and returns an `error`
becomes a function from the old `out` to the pair (new `out`, error).  A Go `error` is an
`Option GoError` (`none` is `nil`), and a run-time panic is the `Except.error` branch.
-/

/-! ## Types declared outside the two embedded files -/

namespace schema

/-- Modelled from the spec: `schema.GroupKind` of k8s.io/apimachinery, the "kind identifier"
of a resource without its version. -/
structure GroupKind where
  Group : String
  Kind : String
deriving DecidableEq, Repr

/-- Modelled from the spec: `schema.GroupVersionKind` of k8s.io/apimachinery, the kind tag an
admission request carries. -/
structure GroupVersionKind where
  Group : String
  Version : String
  Kind : String
deriving DecidableEq, Repr

/-- The method `GroupVersionKind.GroupKind()`: the kind tag with the version dropped. -/
def GroupVersionKind.GroupKind (gvk : GroupVersionKind) : schema.GroupKind :=
  { Group := gvk.Group, Kind := gvk.Kind }

end schema

namespace restaurant

/-- Modelled from the spec: the API group name constant of package `restaurant`
(`register.go` is not among the embedded files). -/
def GroupName : String := "restaurant.programming-kubernetes.info"

/-- Modelled from the spec: `restaurant.Kind(kind)`, the group-qualified kind of package
`restaurant`. -/
def Kind (kind : String) : schema.GroupKind :=
  { Group := GroupName, Kind := kind }

/-- Modelled from the spec: canonical `restaurant.PizzaTopping`, one item of the composition
list: a name and a quantity (Go `int`; it is only ever copied). -/
structure PizzaTopping where
  Name : String
  Quantity : Int
deriving DecidableEq, Repr

/-- Modelled from the spec: canonical `restaurant.PizzaSpec`: the composition list and the
distinguishing attribute `Size`. -/
structure PizzaSpec where
  Toppings : List PizzaTopping
  Size : String
deriving DecidableEq, Repr

/-- Modelled from the spec: canonical `restaurant.Pizza`: an identity (the object name) and
a specification payload. -/
structure Pizza where
  Name : String
  Spec : PizzaSpec
deriving DecidableEq, Repr

end restaurant

namespace v2alpha1

/-- Modelled from the spec: `v2alpha1.PizzaTopping`, as held by the informer cache. -/
structure PizzaTopping where
  Name : String
  Quantity : Int
deriving DecidableEq, Repr

/-- Modelled from the spec: `v2alpha1.PizzaSpec`, the wire version that carries `Size`. -/
structure PizzaSpec where
  Toppings : List PizzaTopping
  Size : String
deriving DecidableEq, Repr

/-- Modelled from the spec: `v2alpha1.Pizza`, the element type of the lister's result. -/
structure Pizza where
  Name : String
  Spec : PizzaSpec
deriving DecidableEq, Repr

end v2alpha1

namespace runtime

/-- Modelled from the spec: the dynamic value behind a `runtime.Object` interface, as far as
the type assertion `obj.(*restaurant.Pizza)` can tell values apart. -/
inductive Object where
  /-- The nil interface value. -/
  | nil
  /-- A non-nil `*restaurant.Pizza`. -/
  | Pizza (p : restaurant.Pizza)
  /-- A nil pointer of type `*restaurant.Pizza` (the assertion succeeds, a field read panics). -/
  | nilPizza
  /-- A value of any other dynamic type. -/
  | other (typeName : String)
deriving DecidableEq, Repr

end runtime

deriving instance DecidableEq for Except

/-- Run-time panics the embedded code can raise. -/
inductive Panic where
  /-- Method call or field read through a nil interface or nil pointer. -/
  | nilDereference
  /-- Single-value type assertion `x.(T)` on a value whose dynamic type is not `T`. -/
  | typeAssertion
deriving DecidableEq, Repr

namespace admission

/-- Modelled from the spec: `admission.Operation` of k8s.io/apiserver. -/
inductive Operation where
  | Create
  | Update
  | Delete
  | Connect
deriving DecidableEq, Repr

/-- Modelled from the spec: the part of `admission.Attributes` an admission request exposes:
target kind, object name, operation and candidate object. -/
structure Attributes where
  Kind : schema.GroupVersionKind
  Name : String
  Operation : Operation
  Object : runtime.Object
deriving DecidableEq, Repr

/-- Getter `a.GetKind()`. -/
def Attributes.GetKind (a : Attributes) : schema.GroupVersionKind := a.Kind

/-- Getter `a.GetObject()`. -/
def Attributes.GetObject (a : Attributes) : runtime.Object := a.Object

/-- Getter `a.GetOperation()`. -/
def Attributes.GetOperation (a : Attributes) : admission.Operation := a.Operation

end admission

/-- Go `error` values built by the embedded code: `fmt.Errorf` strings and the forbidden
status error that `admission.NewForbidden` wraps around an inner error. -/
inductive GoError where
  | errorString (msg : String)
  | forbidden (a : admission.Attributes) (internalError : GoError)
deriving DecidableEq, Repr

/-- The message an error carries: the text of the innermost `fmt.Errorf`. -/
def GoError.carried : GoError → String
  | .errorString msg => msg
  | .forbidden _ internalError => internalError.carried

/-- Whether the error is a forbidden status error. -/
def GoError.isForbidden : GoError → Bool
  | .errorString _ => false
  | .forbidden _ _ => true

namespace fmt

/-- `fmt.Errorf` applied to an already formatted message. -/
def Errorf (msg : String) : GoError := GoError.errorString msg

end fmt

namespace admission

/-- Modelled from the spec: `admission.NewForbidden(a, internalError)`, the rejection that
carries the request and the reason. -/
def NewForbidden (a : Attributes) (internalError : GoError) : GoError :=
  GoError.forbidden a internalError

/-- Modelled from the spec: `admission.Handler` of k8s.io/apiserver: the operations the
plugin is registered for and the optional synchronization-status predicate. -/
structure Handler where
  operations : List Operation
  readyFunc : Option (Unit → Bool)

/-- Modelled from the spec: `admission.NewHandler(ops...)`: registered for `ops`, no
predicate injected yet. -/
def NewHandler (ops : List Operation) : Handler :=
  { operations := ops, readyFunc := none }

/-- Modelled from the spec: `Handler.Handles(op)`: whether the handler is registered for
`op`. -/
def Handler.Handles (h : Handler) (operation : Operation) : Bool :=
  h.operations.contains operation

/-- Modelled from the spec: `Handler.SetReadyFunc`: late injection of the predicate. -/
def Handler.SetReadyFunc (h : Handler) (readyFunc : Unit → Bool) : Handler :=
  { h with readyFunc := some readyFunc }

/-- Modelled from the spec: `Handler.WaitForReady` of k8s.io/apiserver, which is not among
the embedded files.  With a predicate registered it reports that predicate, taken as the
synchronous, already computed boolean of section 5 of the specification.  With no predicate
registered the library returns true at once ("there is no ready func configured, so we return
immediately"); this branch follows the library, not the sentence of section 4.1 of the
specification that asks for not-ready. -/
def Handler.WaitForReady (h : Handler) : Bool :=
  match h.readyFunc with
  | none => true
  | some readyFunc => readyFunc ()

end admission

namespace labels

/-- Modelled from the spec: label selectors; the plugin only ever builds `Everything()`. -/
inductive Selector where
  | Everything
  | Nothing
deriving DecidableEq, Repr

end labels

namespace listers

/-- Modelled from the spec: the generated interface `listers.PizzaLister` (v2alpha1): a
synchronous listing of the cache that returns the objects and an error. -/
structure PizzaLister where
  List : labels.Selector → List v2alpha1.Pizza × Option GoError

end listers

namespace informers

/-- Modelled from the spec: the generated `informers.SharedInformerFactory`, reduced to the two
things `SetRestaurantInformerFactory` takes from it. -/
structure SharedInformerFactory where
  /-- The value of `f.Restaurant().V2alpha1().Pizzas().Lister()`. -/
  Lister : listers.PizzaLister
  /-- The method value `f.Restaurant().V2alpha1().Pizzas().Informer().HasSynced`. -/
  HasSynced : Unit → Bool

end informers

/-! ## `pkg/apis/restaurant/v1beta1/conversion.go` -/

namespace v1beta1

/-- Modelled from the spec: `v1beta1.PizzaTopping` (`types.go` is not among the embedded
files). -/
structure PizzaTopping where
  Name : String
  Quantity : Int
deriving DecidableEq, Repr

/-- Modelled from the spec: `v1beta1.PizzaSpec`, the wire version without `Size`. -/
structure PizzaSpec where
  Toppings : List PizzaTopping
deriving DecidableEq, Repr

/-- The loop of `Convert_v1beta1_PizzaSpec_To_restaurant_PizzaSpec`: one `append` to
`out.Toppings` per input item, in input order. -/
def appendToRestaurant (out : restaurant.PizzaSpec) :
    List PizzaTopping → restaurant.PizzaSpec
  | [] => out
  | top :: rest =>
    appendToRestaurant
      { out with Toppings := out.Toppings ++ [{ Name := top.Name, Quantity := top.Quantity }] }
      rest

/-- `Convert_v1beta1_PizzaSpec_To_restaurant_PizzaSpec(in, out, s)`: returns the updated
`*out` and the returned error. -/
def Convert_v1beta1_PizzaSpec_To_restaurant_PizzaSpec (inp : PizzaSpec)
    (out : restaurant.PizzaSpec) : restaurant.PizzaSpec × Option GoError :=
  let out := appendToRestaurant out inp.Toppings
  let out := { out with Size := "Medium" }
  (out, none)

/-- The loop of `Convert_restaurant_PizzaSpec_To_v1beta1_PizzaSpec`. -/
def appendToV1beta1 (out : PizzaSpec) : List restaurant.PizzaTopping → PizzaSpec
  | [] => out
  | top :: rest =>
    appendToV1beta1
      { out with Toppings := out.Toppings ++ [{ Name := top.Name, Quantity := top.Quantity }] }
      rest

/-- `Convert_restaurant_PizzaSpec_To_v1beta1_PizzaSpec(in, out, s)`: returns the updated
`*out` and the returned error. -/
def Convert_restaurant_PizzaSpec_To_v1beta1_PizzaSpec (inp : restaurant.PizzaSpec)
    (out : PizzaSpec) : PizzaSpec × Option GoError :=
  let out := appendToV1beta1 out inp.Toppings
  (out, none)

/-- A freshly allocated `v1beta1.PizzaSpec` (Go zero value). -/
def PizzaSpec.fresh : PizzaSpec := { Toppings := [] }

end v1beta1

namespace restaurant

/-- A freshly allocated `restaurant.PizzaSpec` (Go zero value). -/
def PizzaSpec.fresh : PizzaSpec := { Toppings := [], Size := "" }

end restaurant

/-! ## `pkg/admission/plugin/pizzasize/admission.go` -/

namespace pizzasize

/-- The plugin: the embedded `*admission.Handler` and the lister (`none` is the nil
interface). -/
structure PizzaSizePlugin where
  Handler : admission.Handler
  pizzaLister : Option listers.PizzaLister

/-- The type assertion `obj.(*restaurant.Pizza)`: the asserted pointer (`none` is a nil
pointer) or a panic. -/
def assertPizza : runtime.Object → Except Panic (Option restaurant.Pizza)
  | .Pizza p => .ok (some p)
  | .nilPizza => .ok none
  | .nil => .error Panic.typeAssertion
  | .other _ => .error Panic.typeAssertion

/-- The `for _, piz := range pizzaListing` loop of `Validate`. -/
def scan (a : admission.Attributes) (pizza : Option restaurant.Pizza) :
    List v2alpha1.Pizza → Except Panic (Option GoError)
  | [] => .ok none
  | piz :: rest =>
    match pizza with
    | none => .error Panic.nilDereference
    | some p =>
      if piz.Spec.Size = p.Spec.Size then
        .ok (some (admission.NewForbidden a
          (fmt.Errorf ("size already present: " ++ piz.Spec.Size))))
      else
        scan a pizza rest

/-- `PizzaSizePlugin.Validate(a, _)`. -/
def PizzaSizePlugin.Validate (d : PizzaSizePlugin) (a : admission.Attributes) :
    Except Panic (Option GoError) :=
  if a.GetKind.GroupKind ≠ restaurant.Kind "Pizza" then
    .ok none
  else if !d.Handler.WaitForReady then
    .ok (some (admission.NewForbidden a (fmt.Errorf "not yet ready to handle request")))
  else
    match assertPizza a.GetObject with
    | .error e => .error e
    | .ok pizza =>
      match d.pizzaLister with
      | none => .error Panic.nilDereference
      | some lister =>
        let pizzaListing := (lister.List labels.Selector.Everything).1
        scan a pizza pizzaListing

/-- `PizzaSizePlugin.SetRestaurantInformerFactory(f)`. -/
def PizzaSizePlugin.SetRestaurantInformerFactory (d : PizzaSizePlugin)
    (f : informers.SharedInformerFactory) : PizzaSizePlugin :=
  let d := { d with pizzaLister := some f.Lister }
  { d with Handler := d.Handler.SetReadyFunc f.HasSynced }

/-- `PizzaSizePlugin.ValidateInitialization()`. -/
def PizzaSizePlugin.ValidateInitialization (d : PizzaSizePlugin) : Option GoError :=
  if d.pizzaLister.isNone then
    some (fmt.Errorf "missing policy lister")
  else
    none

/-- `New()`: the plugin and the returned error. -/
def New : PizzaSizePlugin × Option GoError :=
  ({ Handler := admission.NewHandler [admission.Operation.Create, admission.Operation.Update],
     pizzaLister := none },
   none)

/-- What a result of `Validate` decides: nil, or a rejection given by its kind (forbidden or
not) and the message it carries, or a panic.  The request that `admission.NewForbidden` wraps
into the error is left out. -/
def verdict (r : Except Panic (Option GoError)) : Except Panic (Option (Bool × String)) :=
  match r with
  | .error e => .error e
  | .ok none => .ok none
  | .ok (some err) => .ok (some (err.isForbidden, err.carried))

end pizzasize

/-! ## Test fixtures -/

namespace fixtures

/-- A cached pizza with the given name and size and no toppings. -/
def cached (name size : String) : v2alpha1.Pizza :=
  { Name := name, Spec := { Toppings := [], Size := size } }

/-- A candidate pizza with the given name and size and no toppings. -/
def candidate (name size : String) : restaurant.Pizza :=
  { Name := name, Spec := { Toppings := [], Size := size } }

/-- A lister that returns the given listing and no error, whatever the selector. -/
def listerOf (listing : List v2alpha1.Pizza) : listers.PizzaLister :=
  { List := fun _ => (listing, none) }

/-- A create request of kind restaurant Pizza (version v1beta1) for the given object. -/
def pizzaRequest (name : String) (obj : runtime.Object) : admission.Attributes :=
  { Kind := { Group := restaurant.GroupName, Version := "v1beta1", Kind := "Pizza" },
    Name := name, Operation := admission.Operation.Create, Object := obj }

/-- An informer factory over the given listing with the given sync state. -/
def factoryOf (listing : List v2alpha1.Pizza) (synced : Bool) :
    informers.SharedInformerFactory :=
  { Lister := listerOf listing, HasSynced := fun _ => synced }

/-- The plugin after `New` and `SetRestaurantInformerFactory` on that factory. -/
def pluginOf (listing : List v2alpha1.Pizza) (synced : Bool) : pizzasize.PizzaSizePlugin :=
  pizzasize.New.1.SetRestaurantInformerFactory (factoryOf listing synced)

/-- The listing of the specification example: sizes S and M. -/
def listingSM : List v2alpha1.Pizza := [cached "margherita" "S", cached "salami" "M"]

/-- The same objects listed in the other order. -/
def listingMS : List v2alpha1.Pizza := [cached "salami" "M", cached "margherita" "S"]

/-- An update request of kind restaurant Pizza (version v1beta1) for the given object. -/
def pizzaUpdate (name : String) (obj : runtime.Object) : admission.Attributes :=
  { Kind := { Group := restaurant.GroupName, Version := "v1beta1", Kind := "Pizza" },
    Name := name, Operation := admission.Operation.Update, Object := obj }

/-- A lister whose `List` fails: it returns no objects and an error. -/
def failingLister : listers.PizzaLister :=
  { List := fun _ => ([], some (fmt.Errorf "cache listing failed")) }

/-- A lister whose `List` returns the given listing together with an error. -/
def listerWithError (listing : List v2alpha1.Pizza) : listers.PizzaLister :=
  { List := fun _ => (listing, some (fmt.Errorf "cache listing failed")) }

/-- A plugin with the given lister whose sync predicate returns true. -/
def readyPluginWith (lister : listers.PizzaLister) : pizzasize.PizzaSizePlugin :=
  pizzasize.New.1.SetRestaurantInformerFactory
    { Lister := lister, HasSynced := fun _ => true }

/-- A canonical specification with two toppings, one of negative quantity. -/
def canonicalSpec (size : String) : restaurant.PizzaSpec :=
  { Toppings := [{ Name := "mozzarella", Quantity := 2 }, { Name := "salami", Quantity := -1 }],
    Size := size }

end fixtures

/-! ## Compositions used by the round-trip statements -/

namespace v1beta1

/-- Wire to canonical and back to wire, each call into a fresh output. -/
def roundTripWire (W : PizzaSpec) : PizzaSpec :=
  (Convert_restaurant_PizzaSpec_To_v1beta1_PizzaSpec
    (Convert_v1beta1_PizzaSpec_To_restaurant_PizzaSpec W restaurant.PizzaSpec.fresh).1
    PizzaSpec.fresh).1

/-- Canonical to wire and back to canonical, each call into a fresh output. -/
def roundTripCanonical (O : restaurant.PizzaSpec) : restaurant.PizzaSpec :=
  (Convert_v1beta1_PizzaSpec_To_restaurant_PizzaSpec
    (Convert_restaurant_PizzaSpec_To_v1beta1_PizzaSpec O PizzaSpec.fresh).1
    restaurant.PizzaSpec.fresh).1

end v1beta1

/-! ## A sequential store behind the plugin -/

namespace store

/-- Modelled from the spec: the generated conversion of a canonical topping to v2alpha1. -/
def toppingToV2alpha1 (top : restaurant.PizzaTopping) : v2alpha1.PizzaTopping :=
  { Name := top.Name, Quantity := top.Quantity }

/-- Modelled from the spec: the generated conversion of a canonical pizza to v2alpha1, a wire
version that carries the distinguishing attribute ("both directions are identity-preserving on
that field"). -/
def toV2alpha1 (p : restaurant.Pizza) : v2alpha1.Pizza :=
  { Name := p.Name,
    Spec := { Toppings := p.Spec.Toppings.map toppingToV2alpha1, Size := p.Spec.Size } }

/-- The plugin wired to a synced cache whose listing is exactly `persisted`. -/
def pluginOver (persisted : List v2alpha1.Pizza) : pizzasize.PizzaSizePlugin :=
  pizzasize.New.1.SetRestaurantInformerFactory
    { Lister := { List := fun _ => (persisted, none) }, HasSynced := fun _ => true }

/-- Modelled from the spec: one create request in the sequential model in which the cache
equals the store: a Pizza-kind request that `Validate` accepts persists its candidate, any
other request leaves the store as it is. -/
def create (persisted : List v2alpha1.Pizza) (a : admission.Attributes) :
    List v2alpha1.Pizza :=
  if a.GetKind.GroupKind = restaurant.Kind "Pizza" then
    match a.GetObject with
    | .Pizza p =>
      if (pluginOver persisted).Validate a = .ok none then persisted ++ [toV2alpha1 p]
      else persisted
    | _ => persisted
  else
    persisted

/-- The store after a sequence of create requests, starting from the empty store. -/
def run (requests : List admission.Attributes) : List v2alpha1.Pizza :=
  requests.foldl create []

end store

/-! ## Lemmas about the conversion loops -/

namespace v1beta1

theorem appendToRestaurant_eq (l : List PizzaTopping) (out : restaurant.PizzaSpec) :
    appendToRestaurant out l =
      { Toppings := out.Toppings ++
          l.map (fun top => ({ Name := top.Name, Quantity := top.Quantity } :
            restaurant.PizzaTopping)),
        Size := out.Size } := by
  induction l generalizing out with
  | nil => simp [appendToRestaurant]
  | cons top rest ih => simp [appendToRestaurant, ih]

theorem appendToV1beta1_eq (l : List restaurant.PizzaTopping) (out : PizzaSpec) :
    appendToV1beta1 out l =
      { Toppings := out.Toppings ++
          l.map (fun top => ({ Name := top.Name, Quantity := top.Quantity } : PizzaTopping)) } := by
  induction l generalizing out with
  | nil => simp [appendToV1beta1]
  | cons top rest ih => simp [appendToV1beta1, ih]

theorem toRestaurant_eq (inp : PizzaSpec) (out : restaurant.PizzaSpec) :
    (Convert_v1beta1_PizzaSpec_To_restaurant_PizzaSpec inp out).1 =
      { Toppings := out.Toppings ++
          inp.Toppings.map (fun top => ({ Name := top.Name, Quantity := top.Quantity } :
            restaurant.PizzaTopping)),
        Size := "Medium" } := by
  simp [Convert_v1beta1_PizzaSpec_To_restaurant_PizzaSpec, appendToRestaurant_eq]

theorem toV1beta1_eq (inp : restaurant.PizzaSpec) (out : PizzaSpec) :
    (Convert_restaurant_PizzaSpec_To_v1beta1_PizzaSpec inp out).1 =
      { Toppings := out.Toppings ++
          inp.Toppings.map (fun top => ({ Name := top.Name, Quantity := top.Quantity } :
            PizzaTopping)) } := by
  simp [Convert_restaurant_PizzaSpec_To_v1beta1_PizzaSpec, appendToV1beta1_eq]

theorem roundTripWire_eq (W : PizzaSpec) : roundTripWire W = W := by
  cases W with
  | mk tops =>
    simp only [roundTripWire, toRestaurant_eq, toV1beta1_eq, restaurant.PizzaSpec.fresh,
      PizzaSpec.fresh, List.nil_append, List.map_map]
    congr 1
    induction tops with
    | nil => rfl
    | cons top rest ih => simp [ih]

theorem roundTripCanonical_eq (O : restaurant.PizzaSpec) :
    roundTripCanonical O = { Toppings := O.Toppings, Size := "Medium" } := by
  cases O with
  | mk tops size =>
    simp only [roundTripCanonical, toRestaurant_eq, toV1beta1_eq, restaurant.PizzaSpec.fresh,
      PizzaSpec.fresh, List.nil_append, List.map_map]
    congr 1
    induction tops with
    | nil => rfl
    | cons top rest ih => simp [ih]

end v1beta1

/-! ## Lemmas about `Validate` -/

namespace pizzasize

theorem scan_eq_find (a : admission.Attributes) (p : restaurant.Pizza)
    (l : List v2alpha1.Pizza) :
    scan a (some p) l =
      match l.find? (fun piz => decide (piz.Spec.Size = p.Spec.Size)) with
      | none => .ok none
      | some piz => .ok (some (admission.NewForbidden a
          (fmt.Errorf ("size already present: " ++ piz.Spec.Size)))) := by
  induction l with
  | nil => simp [scan]
  | cons piz rest ih =>
    by_cases h : piz.Spec.Size = p.Spec.Size
    · simp [scan, List.find?, h]
    · simp [scan, List.find?, h, ih]

theorem scan_accepts_iff (a : admission.Attributes) (p : restaurant.Pizza)
    (l : List v2alpha1.Pizza) :
    scan a (some p) l = .ok none ↔ ∀ piz ∈ l, piz.Spec.Size ≠ p.Spec.Size := by
  induction l with
  | nil => simp [scan]
  | cons piz rest ih =>
    by_cases h : piz.Spec.Size = p.Spec.Size
    · simp [scan, h]
    · simp [scan, h, ih]

theorem Validate_ready (d : PizzaSizePlugin) (a : admission.Attributes)
    (lister : listers.PizzaLister) (readyFunc : Unit → Bool) (pizza : restaurant.Pizza)
    (hKind : a.GetKind.GroupKind = restaurant.Kind "Pizza")
    (hReady : d.Handler.readyFunc = some readyFunc) (hSync : readyFunc () = true)
    (hLister : d.pizzaLister = some lister)
    (hObj : a.GetObject = runtime.Object.Pizza pizza) :
    d.Validate a = scan a (some pizza) (lister.List labels.Selector.Everything).1 := by
  simp [PizzaSizePlugin.Validate, hKind, admission.Handler.WaitForReady, hReady, hSync, hObj,
    assertPizza, hLister]

theorem Validate_notReady (d : PizzaSizePlugin) (a : admission.Attributes)
    (hKind : a.GetKind.GroupKind = restaurant.Kind "Pizza")
    (hGate : d.Handler.WaitForReady = false) :
    d.Validate a =
      .ok (some (admission.NewForbidden a (fmt.Errorf "not yet ready to handle request"))) := by
  simp [PizzaSizePlugin.Validate, hKind, hGate]

end pizzasize

/-! ## Admission decisions -/

/-- C1: for a ready plugin (predicate injected and returning true, lister injected) and a
request of kind restaurant Pizza carrying a Pizza, `Validate` returns nil exactly when no
object of the lister's current listing has the candidate's `Spec.Size`. -/
theorem validate_accepts_iff_size_unused (d : pizzasize.PizzaSizePlugin)
    (a : admission.Attributes) (lister : listers.PizzaLister) (readyFunc : Unit → Bool)
    (pizza : restaurant.Pizza)
    (hKind : a.GetKind.GroupKind = restaurant.Kind "Pizza")
    (hReady : d.Handler.readyFunc = some readyFunc) (hSync : readyFunc () = true)
    (hLister : d.pizzaLister = some lister)
    (hObj : a.GetObject = runtime.Object.Pizza pizza) :
    d.Validate a = .ok none ↔
      ∀ piz ∈ (lister.List labels.Selector.Everything).1, piz.Spec.Size ≠ pizza.Spec.Size := by
  rw [pizzasize.Validate_ready d a lister readyFunc pizza hKind hReady hSync hLister hObj]
  exact pizzasize.scan_accepts_iff a pizza _

/-- C1, the example of the specification: with listed sizes S and M a candidate of size L is
accepted and a candidate of size S is not. -/
theorem validate_accepts_iff_size_unused_witness :
    (fixtures.pluginOf fixtures.listingSM true).Validate
        (fixtures.pizzaRequest "quattro" (.Pizza (fixtures.candidate "quattro" "L")))
      = .ok none ∧
    (fixtures.pluginOf fixtures.listingSM true).Validate
        (fixtures.pizzaRequest "quattro" (.Pizza (fixtures.candidate "quattro" "S")))
      ≠ .ok none :=
  ⟨(validate_accepts_iff_size_unused (fixtures.pluginOf fixtures.listingSM true)
      (fixtures.pizzaRequest "quattro" (.Pizza (fixtures.candidate "quattro" "L")))
      (fixtures.listerOf fixtures.listingSM) (fun _ => true) (fixtures.candidate "quattro" "L")
      (by decide) rfl rfl rfl rfl).mpr (by decide),
   fun h => absurd
     ((validate_accepts_iff_size_unused (fixtures.pluginOf fixtures.listingSM true)
      (fixtures.pizzaRequest "quattro" (.Pizza (fixtures.candidate "quattro" "S")))
      (fixtures.listerOf fixtures.listingSM) (fun _ => true) (fixtures.candidate "quattro" "S")
      (by decide) rfl rfl rfl rfl).mp h)
     (by decide)⟩

/-- C2: for a request of kind restaurant Pizza, while the injected sync predicate returns
false `Validate` returns the forbidden error carrying "not yet ready to handle request" and
does not accept, whatever the lister is (unset, or listing any objects). -/
theorem validate_rejects_while_not_synced (d : pizzasize.PizzaSizePlugin)
    (a : admission.Attributes) (readyFunc : Unit → Bool)
    (hKind : a.GetKind.GroupKind = restaurant.Kind "Pizza")
    (hReady : d.Handler.readyFunc = some readyFunc) (hSync : readyFunc () = false) :
    d.Validate a =
        .ok (some (admission.NewForbidden a (fmt.Errorf "not yet ready to handle request"))) ∧
      (admission.NewForbidden a (fmt.Errorf "not yet ready to handle request")).isForbidden
        = true ∧
      (admission.NewForbidden a (fmt.Errorf "not yet ready to handle request")).carried
        = "not yet ready to handle request" ∧
      d.Validate a ≠ .ok none := by
  have hGate : d.Handler.WaitForReady = false := by
    simp [admission.Handler.WaitForReady, hReady, hSync]
  have hV := pizzasize.Validate_notReady d a hKind hGate
  refine ⟨hV, rfl, rfl, ?_⟩
  rw [hV]
  simp

/-- C2 at a concrete input: the cache is not synced and already holds size S; a candidate
of the free size L and a candidate of the used size S are both rejected as not ready. -/
theorem validate_rejects_while_not_synced_witness :
    (fixtures.pluginOf fixtures.listingSM false).Validate
        (fixtures.pizzaRequest "quattro" (.Pizza (fixtures.candidate "quattro" "L")))
      ≠ .ok none ∧
    (fixtures.pluginOf fixtures.listingSM false).Validate
        (fixtures.pizzaRequest "quattro" (.Pizza (fixtures.candidate "quattro" "S")))
      = .ok (some (admission.NewForbidden
          (fixtures.pizzaRequest "quattro" (.Pizza (fixtures.candidate "quattro" "S")))
          (fmt.Errorf "not yet ready to handle request"))) :=
  ⟨(validate_rejects_while_not_synced (fixtures.pluginOf fixtures.listingSM false)
      (fixtures.pizzaRequest "quattro" (.Pizza (fixtures.candidate "quattro" "L")))
      (fun _ => false) (by decide) rfl rfl).2.2.2,
   (validate_rejects_while_not_synced (fixtures.pluginOf fixtures.listingSM false)
      (fixtures.pizzaRequest "quattro" (.Pizza (fixtures.candidate "quattro" "S")))
      (fun _ => false) (by decide) rfl rfl).1⟩

/-- C3: for a request whose group-kind is not restaurant Pizza, `Validate` returns nil for
every plugin state (any handler, predicate injected or not, any lister or none) and every
request content (any operation, any object); in particular two plugins that differ in
anything, the cache included, decide such a request alike. -/
theorem validate_passes_other_kinds (a : admission.Attributes)
    (hKind : a.GetKind.GroupKind ≠ restaurant.Kind "Pizza") :
    (∀ d : pizzasize.PizzaSizePlugin, d.Validate a = .ok none) ∧
      (∀ d₁ d₂ : pizzasize.PizzaSizePlugin, d₁.Validate a = d₂.Validate a) := by
  have h : ∀ d : pizzasize.PizzaSizePlugin, d.Validate a = .ok none := by
    intro d
    simp [pizzasize.PizzaSizePlugin.Validate, hKind]
  exact ⟨h, fun d₁ d₂ => by rw [h d₁, h d₂]⟩

/-- C3 at a concrete input: a delete request of kind Topping that carries a pizza of the
used size S passes a synced plugin and a plugin straight from `New`. -/
theorem validate_passes_other_kinds_witness :
    (fixtures.pluginOf fixtures.listingSM true).Validate
        { Kind := { Group := restaurant.GroupName, Version := "v1beta1", Kind := "Topping" },
          Name := "salami", Operation := admission.Operation.Delete,
          Object := .Pizza (fixtures.candidate "salami" "S") } = .ok none ∧
    pizzasize.New.1.Validate
        { Kind := { Group := restaurant.GroupName, Version := "v1beta1", Kind := "Topping" },
          Name := "salami", Operation := admission.Operation.Delete,
          Object := .Pizza (fixtures.candidate "salami" "S") } = .ok none :=
  ⟨(validate_passes_other_kinds
      { Kind := { Group := restaurant.GroupName, Version := "v1beta1", Kind := "Topping" },
        Name := "salami", Operation := admission.Operation.Delete,
        Object := .Pizza (fixtures.candidate "salami" "S") } (by decide)).1 _,
   (validate_passes_other_kinds
      { Kind := { Group := restaurant.GroupName, Version := "v1beta1", Kind := "Topping" },
        Name := "salami", Operation := admission.Operation.Delete,
        Object := .Pizza (fixtures.candidate "salami" "S") } (by decide)).1 _⟩

/-! ## Conversion between v1beta1 and the canonical schema -/

/-- C4: for every v1beta1 input and every prior content of the output,
`Convert_v1beta1_PizzaSpec_To_restaurant_PizzaSpec` leaves the output's `Size` equal to
"Medium". -/
theorem toRestaurant_size_is_medium (inp : v1beta1.PizzaSpec) (out : restaurant.PizzaSpec) :
    (v1beta1.Convert_v1beta1_PizzaSpec_To_restaurant_PizzaSpec inp out).1.Size = "Medium" := by
  rw [v1beta1.toRestaurant_eq]

/-- C5: into a fresh output, both conversion functions produce a toppings list of the input's
length whose item at every index has the `Name` and `Quantity` of the input item at that
index (and no item where the input has none). -/
theorem toppings_copied_in_order (wire : v1beta1.PizzaSpec) (canonical : restaurant.PizzaSpec) :
    ((v1beta1.Convert_v1beta1_PizzaSpec_To_restaurant_PizzaSpec wire
          restaurant.PizzaSpec.fresh).1.Toppings.length = wire.Toppings.length ∧
      ∀ i : Nat,
        ((v1beta1.Convert_v1beta1_PizzaSpec_To_restaurant_PizzaSpec wire
            restaurant.PizzaSpec.fresh).1.Toppings[i]?).map (fun o => (o.Name, o.Quantity))
          = (wire.Toppings[i]?).map (fun top => (top.Name, top.Quantity))) ∧
    ((v1beta1.Convert_restaurant_PizzaSpec_To_v1beta1_PizzaSpec canonical
          v1beta1.PizzaSpec.fresh).1.Toppings.length = canonical.Toppings.length ∧
      ∀ i : Nat,
        ((v1beta1.Convert_restaurant_PizzaSpec_To_v1beta1_PizzaSpec canonical
            v1beta1.PizzaSpec.fresh).1.Toppings[i]?).map (fun o => (o.Name, o.Quantity))
          = (canonical.Toppings[i]?).map (fun top => (top.Name, top.Quantity))) := by
  rw [v1beta1.toRestaurant_eq, v1beta1.toV1beta1_eq]
  simp only [restaurant.PizzaSpec.fresh, v1beta1.PizzaSpec.fresh, List.nil_append,
    List.length_map, List.getElem?_map, Option.map_map, true_and]
  constructor
  · intro i
    cases wire.Toppings[i]? <;> rfl
  · intro i
    cases canonical.Toppings[i]? <;> rfl

/-- C6: a v1beta1 `PizzaSpec` converted to the canonical schema and back, each time into a
fresh output, is returned unchanged. -/
theorem wire_round_trip_is_identity (W : v1beta1.PizzaSpec) :
    v1beta1.roundTripWire W = W ∧
      (v1beta1.roundTripWire W).Toppings = W.Toppings := by
  rw [v1beta1.roundTripWire_eq]
  exact ⟨rfl, rfl⟩

/-- C7: a canonical `PizzaSpec` converted to v1beta1 and back, each time into a fresh output,
keeps its toppings and gets `Size` "Medium"; the result is the original exactly when the
original `Size` is "Medium", and a second round trip changes nothing more. -/
theorem canonical_round_trip_defaults_size (O : restaurant.PizzaSpec) :
    v1beta1.roundTripCanonical O = { Toppings := O.Toppings, Size := "Medium" } ∧
      (v1beta1.roundTripCanonical O = O ↔ O.Size = "Medium") ∧
      v1beta1.roundTripCanonical (v1beta1.roundTripCanonical O)
        = v1beta1.roundTripCanonical O := by
  refine ⟨v1beta1.roundTripCanonical_eq O, ?_, ?_⟩
  · rw [v1beta1.roundTripCanonical_eq]
    cases O with
    | mk tops size =>
      constructor
      · intro h
        injection h with _ h₂
        exact h₂.symm
      · intro h
        simp only at h
        rw [h]
  · simp only [v1beta1.roundTripCanonical_eq]

/-! ## Plugin life cycle -/

/-- C8: `ValidateInitialization` returns the error "missing policy lister" on the plugin
returned by `New`, and nil once `SetRestaurantInformerFactory` was called, whatever the
factory's sync state; for any handler state the result is that error when the lister is
unset and nil when it is set. -/
theorem validateInitialization_detects_missing_lister :
    pizzasize.New.1.ValidateInitialization = some (fmt.Errorf "missing policy lister") ∧
      (∀ (d : pizzasize.PizzaSizePlugin) (f : informers.SharedInformerFactory),
        (d.SetRestaurantInformerFactory f).ValidateInitialization = none) ∧
      (∀ h : admission.Handler,
        pizzasize.PizzaSizePlugin.ValidateInitialization { Handler := h, pizzaLister := none }
          = some (fmt.Errorf "missing policy lister")) ∧
      (∀ (h : admission.Handler) (lister : listers.PizzaLister),
        pizzasize.PizzaSizePlugin.ValidateInitialization
          { Handler := h, pizzaLister := some lister } = none) := by
  refine ⟨rfl, ?_, ?_, ?_⟩
  · intro d f
    rfl
  · intro h
    rfl
  · intro h lister
    rfl

/-- C9, as stated, fails: the plugin returned by `New` has no sync predicate and no lister,
the request is of kind restaurant Pizza, the readiness gate reports ready, and `Validate` does
not return the not-ready rejection but ends in the nil dereference of the unset lister. -/
theorem validate_before_injection_reaches_list :
    pizzasize.New.1.Handler.readyFunc.isNone = true ∧
      pizzasize.New.1.pizzaLister.isNone = true ∧
      (fixtures.pizzaRequest "quattro"
        (.Pizza (fixtures.candidate "quattro" "L"))).GetKind.GroupKind
        = restaurant.Kind "Pizza" ∧
      pizzasize.New.1.Handler.WaitForReady = true ∧
      pizzasize.New.1.Validate
        (fixtures.pizzaRequest "quattro" (.Pizza (fixtures.candidate "quattro" "L")))
        ≠ .ok (some (admission.NewForbidden
          (fixtures.pizzaRequest "quattro" (.Pizza (fixtures.candidate "quattro" "L")))
          (fmt.Errorf "not yet ready to handle request"))) ∧
      pizzasize.New.1.Validate
        (fixtures.pizzaRequest "quattro" (.Pizza (fixtures.candidate "quattro" "L")))
        = .error Panic.nilDereference := by
  refine ⟨rfl, rfl, ?_, rfl, ?_, ?_⟩ <;> decide

/-- C9, amended: on the plugin returned by `New`, with no sync predicate injected, the
readiness gate reports ready, so `Validate` on a request of kind restaurant Pizza never
returns the forbidden error carrying "not yet ready to handle request"; the missing injection
is reported by `ValidateInitialization` ("missing policy lister"). -/
theorem gate_is_open_before_injection (a : admission.Attributes)
    (hKind : a.GetKind.GroupKind = restaurant.Kind "Pizza") :
    pizzasize.New.1.Handler.WaitForReady = true ∧
      pizzasize.New.1.Validate a ≠
        .ok (some (admission.NewForbidden a (fmt.Errorf "not yet ready to handle request"))) ∧
      pizzasize.New.1.ValidateInitialization = some (fmt.Errorf "missing policy lister") := by
  refine ⟨rfl, ?_, rfl⟩
  have hPanic : ∃ p : Panic, pizzasize.New.1.Validate a = .error p := by
    simp only [pizzasize.PizzaSizePlugin.Validate, hKind, ne_eq, not_true_eq_false, if_false]
    have hGate : pizzasize.New.1.Handler.WaitForReady = true := rfl
    simp only [hGate, Bool.not_true, Bool.false_eq_true, if_false]
    cases hObj : pizzasize.assertPizza a.GetObject with
    | error e => exact ⟨e, rfl⟩
    | ok pizza => exact ⟨Panic.nilDereference, rfl⟩
  obtain ⟨p, hp⟩ := hPanic
  rw [hp]
  simp

/-- C9, amended, at a concrete input: a create request for a pizza of size L on the plugin
returned by `New` is not answered with the not-ready rejection. -/
theorem gate_is_open_before_injection_witness :
    pizzasize.New.1.Validate
        (fixtures.pizzaRequest "quattro" (.Pizza (fixtures.candidate "quattro" "L")))
      ≠ .ok (some (admission.NewForbidden
          (fixtures.pizzaRequest "quattro" (.Pizza (fixtures.candidate "quattro" "L")))
          (fmt.Errorf "not yet ready to handle request"))) :=
  (gate_is_open_before_injection
    (fixtures.pizzaRequest "quattro" (.Pizza (fixtures.candidate "quattro" "L")))
    (by decide)).2.1

/-! ## Uniqueness of sizes -/

namespace pizzasize

theorem scan_accept_keeps_nodup (a : admission.Attributes) (p : restaurant.Pizza)
    (l : List v2alpha1.Pizza)
    (hDistinct : (l.map (fun piz => piz.Spec.Size)).Nodup)
    (hAccept : scan a (some p) l = .ok none) :
    (l.map (fun piz => piz.Spec.Size) ++ [p.Spec.Size]).Nodup := by
  rw [scan_accepts_iff] at hAccept
  rw [List.nodup_append]
  refine ⟨hDistinct, List.nodup_singleton _, ?_⟩
  intro size hIn hSingle
  rw [List.mem_singleton] at hSingle
  rw [List.mem_map] at hIn
  obtain ⟨piz, hMem, hSize⟩ := hIn
  exact hAccept piz hMem (by rw [hSize, hSingle])

end pizzasize

namespace store

theorem create_keeps_nodup (persisted : List v2alpha1.Pizza) (a : admission.Attributes)
    (hDistinct : (persisted.map (fun piz => piz.Spec.Size)).Nodup) :
    ((create persisted a).map (fun piz => piz.Spec.Size)).Nodup := by
  unfold create
  split
  · rename_i hKind
    split
    · rename_i p hObj
      split
      · rename_i hAccept
        rw [pizzasize.Validate_ready (pluginOver persisted) a
          { List := fun _ => (persisted, none) } (fun _ => true) p hKind rfl rfl rfl hObj]
          at hAccept
        have h := pizzasize.scan_accept_keeps_nodup a p persisted hDistinct hAccept
        simpa [toV2alpha1] using h
      · exact hDistinct
    · exact hDistinct
  · exact hDistinct

theorem foldl_create_keeps_nodup (requests : List admission.Attributes)
    (persisted : List v2alpha1.Pizza)
    (hDistinct : (persisted.map (fun piz => piz.Spec.Size)).Nodup) :
    ((requests.foldl create persisted).map (fun piz => piz.Spec.Size)).Nodup := by
  induction requests generalizing persisted with
  | nil => exact hDistinct
  | cons a rest ih => exact ih _ (create_keeps_nodup persisted a hDistinct)

/-- In the sequential model every reachable store holds each size at most once. -/
theorem run_sizes_nodup (requests : List admission.Attributes) :
    ((run requests).map (fun piz => piz.Spec.Size)).Nodup :=
  foldl_create_keeps_nodup requests [] List.nodup_nil

end store

/-- C10: if the sizes of the listed objects are pairwise distinct and a ready plugin's
`Validate` accepts a Pizza candidate against that listing, the sizes of the listing extended
with the candidate are still pairwise distinct. -/
theorem accepted_candidate_keeps_sizes_distinct (d : pizzasize.PizzaSizePlugin)
    (a : admission.Attributes) (lister : listers.PizzaLister) (readyFunc : Unit → Bool)
    (pizza : restaurant.Pizza)
    (hKind : a.GetKind.GroupKind = restaurant.Kind "Pizza")
    (hReady : d.Handler.readyFunc = some readyFunc) (hSync : readyFunc () = true)
    (hLister : d.pizzaLister = some lister)
    (hObj : a.GetObject = runtime.Object.Pizza pizza)
    (hDistinct :
      ((lister.List labels.Selector.Everything).1.map (fun piz => piz.Spec.Size)).Nodup)
    (hAccept : d.Validate a = .ok none) :
    ((lister.List labels.Selector.Everything).1.map (fun piz => piz.Spec.Size)
      ++ [pizza.Spec.Size]).Nodup := by
  rw [pizzasize.Validate_ready d a lister readyFunc pizza hKind hReady hSync hLister hObj]
    at hAccept
  exact pizzasize.scan_accept_keeps_nodup a pizza _ hDistinct hAccept

/-- C10 at a concrete input: the listing holds sizes S and M, the accepted candidate has size
L, and the three sizes are pairwise distinct. -/
theorem accepted_candidate_keeps_sizes_distinct_witness :
    (fixtures.pluginOf fixtures.listingSM true).Validate
        (fixtures.pizzaRequest "quattro" (.Pizza (fixtures.candidate "quattro" "L")))
      = .ok none ∧
    (fixtures.listingSM.map (fun piz => piz.Spec.Size) ++ ["L"]).Nodup :=
  ⟨by decide,
   accepted_candidate_keeps_sizes_distinct (fixtures.pluginOf fixtures.listingSM true)
    (fixtures.pizzaRequest "quattro" (.Pizza (fixtures.candidate "quattro" "L")))
    (fixtures.listerOf fixtures.listingSM) (fun _ => true) (fixtures.candidate "quattro" "L")
    (by decide) rfl rfl rfl rfl (by decide) (by decide)⟩

/-! ## Errors of the conversion functions -/

/-- C11: both conversion functions return a nil error for every input and every prior
output; an empty toppings list and a negative quantity are inputs like any other. -/
theorem conversions_return_nil_error :
    (∀ (wire : v1beta1.PizzaSpec) (out : restaurant.PizzaSpec),
      (v1beta1.Convert_v1beta1_PizzaSpec_To_restaurant_PizzaSpec wire out).2 = none) ∧
    (∀ (canonical : restaurant.PizzaSpec) (out : v1beta1.PizzaSpec),
      (v1beta1.Convert_restaurant_PizzaSpec_To_v1beta1_PizzaSpec canonical out).2 = none) ∧
    (v1beta1.Convert_v1beta1_PizzaSpec_To_restaurant_PizzaSpec { Toppings := [] }
      restaurant.PizzaSpec.fresh).2 = none ∧
    (v1beta1.Convert_restaurant_PizzaSpec_To_v1beta1_PizzaSpec (fixtures.canonicalSpec "L")
      v1beta1.PizzaSpec.fresh).2 = none :=
  ⟨fun _ _ => rfl, fun _ _ => rfl, rfl, rfl⟩

/-! ## The conflict message -/

/-- C12: when a ready plugin's `Validate` does not accept a Pizza candidate, the listing has a
first object of the candidate's size, and the result is the forbidden error carrying
"size already present: " followed by that object's `Spec.Size`, which is the candidate's own
`Spec.Size`. -/
theorem conflict_names_first_matching_size (d : pizzasize.PizzaSizePlugin)
    (a : admission.Attributes) (lister : listers.PizzaLister) (readyFunc : Unit → Bool)
    (pizza : restaurant.Pizza)
    (hKind : a.GetKind.GroupKind = restaurant.Kind "Pizza")
    (hReady : d.Handler.readyFunc = some readyFunc) (hSync : readyFunc () = true)
    (hLister : d.pizzaLister = some lister)
    (hObj : a.GetObject = runtime.Object.Pizza pizza)
    (hReject : d.Validate a ≠ .ok none) :
    ∃ piz : v2alpha1.Pizza,
      (lister.List labels.Selector.Everything).1.find?
          (fun piz => decide (piz.Spec.Size = pizza.Spec.Size)) = some piz ∧
        d.Validate a = .ok (some (admission.NewForbidden a
          (fmt.Errorf ("size already present: " ++ piz.Spec.Size)))) ∧
        (admission.NewForbidden a
          (fmt.Errorf ("size already present: " ++ piz.Spec.Size))).isForbidden = true ∧
        (admission.NewForbidden a
          (fmt.Errorf ("size already present: " ++ piz.Spec.Size))).carried
          = "size already present: " ++ piz.Spec.Size ∧
        piz.Spec.Size = pizza.Spec.Size := by
  rw [pizzasize.Validate_ready d a lister readyFunc pizza hKind hReady hSync hLister hObj,
    pizzasize.scan_eq_find] at hReject ⊢
  cases hFind : (lister.List labels.Selector.Everything).1.find?
      (fun piz => decide (piz.Spec.Size = pizza.Spec.Size)) with
  | none =>
    rw [hFind] at hReject
    exact absurd rfl hReject
  | some piz =>
    refine ⟨piz, rfl, rfl, rfl, rfl, ?_⟩
    have h := List.find?_some hFind
    simpa using h

/-- C12 at a concrete input: sizes S and M are listed and the candidate has size S; the
rejection carries "size already present: S". -/
theorem conflict_names_first_matching_size_witness :
    ∃ piz : v2alpha1.Pizza,
      fixtures.listingSM.find? (fun piz => decide (piz.Spec.Size = "S")) = some piz ∧
        (fixtures.pluginOf fixtures.listingSM true).Validate
            (fixtures.pizzaRequest "quattro" (.Pizza (fixtures.candidate "quattro" "S")))
          = .ok (some (admission.NewForbidden
              (fixtures.pizzaRequest "quattro" (.Pizza (fixtures.candidate "quattro" "S")))
              (fmt.Errorf ("size already present: " ++ piz.Spec.Size)))) ∧
        piz.Spec.Size = "S" := by
  obtain ⟨piz, h₁, h₂, _, _, h₅⟩ :=
    conflict_names_first_matching_size (fixtures.pluginOf fixtures.listingSM true)
      (fixtures.pizzaRequest "quattro" (.Pizza (fixtures.candidate "quattro" "S")))
      (fixtures.listerOf fixtures.listingSM) (fun _ => true) (fixtures.candidate "quattro" "S")
      (by decide) rfl rfl rfl rfl (by decide)
  exact ⟨piz, h₁, h₂, h₅⟩

/-! ## Registered operations -/

/-- C13: the plugin returned by `New` handles create and update and does not handle delete
and connect. -/
theorem new_handles_create_and_update_only :
    pizzasize.New.1.Handler.Handles admission.Operation.Create = true ∧
      pizzasize.New.1.Handler.Handles admission.Operation.Update = true ∧
      pizzasize.New.1.Handler.Handles admission.Operation.Delete = false ∧
      pizzasize.New.1.Handler.Handles admission.Operation.Connect = false ∧
      pizzasize.New.2 = none := by
  refine ⟨?_, ?_, ?_, ?_, rfl⟩ <;> decide

/-! ## What the scan depends on -/

namespace pizzasize

theorem scan_eq_ite (a : admission.Attributes) (p : restaurant.Pizza)
    (l : List v2alpha1.Pizza) :
    scan a (some p) l =
      if ∃ piz ∈ l, piz.Spec.Size = p.Spec.Size then
        .ok (some (admission.NewForbidden a
          (fmt.Errorf ("size already present: " ++ p.Spec.Size))))
      else .ok none := by
  induction l with
  | nil => simp [scan]
  | cons piz rest ih =>
    by_cases h : piz.Spec.Size = p.Spec.Size
    · simp [scan, h]
    · simp [scan, h, ih]

theorem scan_perm (a : admission.Attributes) (p : restaurant.Pizza)
    (l₁ l₂ : List v2alpha1.Pizza) (hPerm : l₁.Perm l₂) :
    scan a (some p) l₁ = scan a (some p) l₂ := by
  rw [scan_eq_ite, scan_eq_ite]
  have h : (∃ piz ∈ l₁, piz.Spec.Size = p.Spec.Size) ↔
      (∃ piz ∈ l₂, piz.Spec.Size = p.Spec.Size) := by
    constructor
    · rintro ⟨piz, hMem, hSize⟩
      exact ⟨piz, hPerm.mem_iff.mp hMem, hSize⟩
    · rintro ⟨piz, hMem, hSize⟩
      exact ⟨piz, hPerm.mem_iff.mpr hMem, hSize⟩
  simp only [h]

theorem verdict_scan (a : admission.Attributes) (p : restaurant.Pizza)
    (l : List v2alpha1.Pizza) :
    verdict (scan a (some p) l) =
      if ∃ piz ∈ l, piz.Spec.Size = p.Spec.Size then
        .ok (some (true, "size already present: " ++ p.Spec.Size))
      else .ok none := by
  rw [scan_eq_ite]
  split <;> rfl

end pizzasize

/-- C14: for a ready plugin, an update request whose candidate is already listed under the
same name with the same `Spec.Size` is rejected with the size conflict; and two Pizza-kind
requests whose candidates have the same `Spec.Size` get the same decision and the same
conflict message, whatever their names and operations. -/
theorem scan_does_not_exclude_own_identity (d : pizzasize.PizzaSizePlugin)
    (lister : listers.PizzaLister) (readyFunc : Unit → Bool)
    (hReady : d.Handler.readyFunc = some readyFunc) (hSync : readyFunc () = true)
    (hLister : d.pizzaLister = some lister) :
    (∀ (a : admission.Attributes) (pizza : restaurant.Pizza),
        a.GetKind.GroupKind = restaurant.Kind "Pizza" →
        a.GetObject = runtime.Object.Pizza pizza →
        a.GetOperation = admission.Operation.Update →
        (∃ piz ∈ (lister.List labels.Selector.Everything).1,
          piz.Name = pizza.Name ∧ piz.Spec.Size = pizza.Spec.Size) →
        d.Validate a = .ok (some (admission.NewForbidden a
          (fmt.Errorf ("size already present: " ++ pizza.Spec.Size))))) ∧
    (∀ (a₁ a₂ : admission.Attributes) (p₁ p₂ : restaurant.Pizza),
        a₁.GetKind.GroupKind = restaurant.Kind "Pizza" →
        a₂.GetKind.GroupKind = restaurant.Kind "Pizza" →
        a₁.GetObject = runtime.Object.Pizza p₁ →
        a₂.GetObject = runtime.Object.Pizza p₂ →
        p₁.Spec.Size = p₂.Spec.Size →
        pizzasize.verdict (d.Validate a₁) = pizzasize.verdict (d.Validate a₂)) := by
  constructor
  · intro a pizza hKind hObj _ hListed
    rw [pizzasize.Validate_ready d a lister readyFunc pizza hKind hReady hSync hLister hObj,
      pizzasize.scan_eq_ite]
    obtain ⟨piz, hMem, _, hSize⟩ := hListed
    rw [if_pos ⟨piz, hMem, hSize⟩]
  · intro a₁ a₂ p₁ p₂ hKind₁ hKind₂ hObj₁ hObj₂ hSize
    rw [pizzasize.Validate_ready d a₁ lister readyFunc p₁ hKind₁ hReady hSync hLister hObj₁,
      pizzasize.Validate_ready d a₂ lister readyFunc p₂ hKind₂ hReady hSync hLister hObj₂,
      pizzasize.verdict_scan, pizzasize.verdict_scan, hSize]

/-- C14 at a concrete input: "margherita" is listed with size S; an update of "margherita"
that keeps size S is rejected with the size conflict, with the same decision and message as
a create of the new object "quattro" of size S. -/
theorem scan_does_not_exclude_own_identity_witness :
    (fixtures.pluginOf fixtures.listingSM true).Validate
        (fixtures.pizzaUpdate "margherita" (.Pizza (fixtures.candidate "margherita" "S")))
      = .ok (some (admission.NewForbidden
          (fixtures.pizzaUpdate "margherita" (.Pizza (fixtures.candidate "margherita" "S")))
          (fmt.Errorf "size already present: S"))) ∧
    pizzasize.verdict ((fixtures.pluginOf fixtures.listingSM true).Validate
        (fixtures.pizzaUpdate "margherita" (.Pizza (fixtures.candidate "margherita" "S"))))
      = pizzasize.verdict ((fixtures.pluginOf fixtures.listingSM true).Validate
        (fixtures.pizzaRequest "quattro" (.Pizza (fixtures.candidate "quattro" "S")))) :=
  ⟨(scan_does_not_exclude_own_identity (fixtures.pluginOf fixtures.listingSM true)
      (fixtures.listerOf fixtures.listingSM) (fun _ => true) rfl rfl rfl).1
      (fixtures.pizzaUpdate "margherita" (.Pizza (fixtures.candidate "margherita" "S")))
      (fixtures.candidate "margherita" "S") (by decide) rfl rfl
      ⟨fixtures.cached "margherita" "S", by decide, rfl, rfl⟩,
   (scan_does_not_exclude_own_identity (fixtures.pluginOf fixtures.listingSM true)
      (fixtures.listerOf fixtures.listingSM) (fun _ => true) rfl rfl rfl).2
      (fixtures.pizzaUpdate "margherita" (.Pizza (fixtures.candidate "margherita" "S")))
      (fixtures.pizzaRequest "quattro" (.Pizza (fixtures.candidate "quattro" "S")))
      (fixtures.candidate "margherita" "S") (fixtures.candidate "quattro" "S")
      (by decide) (by decide) rfl rfl rfl⟩

/-! ## The dropped attribute -/

/-- C15: `Convert_restaurant_PizzaSpec_To_v1beta1_PizzaSpec` does not read `Size`: two
canonical inputs with the same toppings and any two sizes give, from the same prior output,
the same output and the same nil error. -/
theorem toV1beta1_drops_size (toppings : List restaurant.PizzaTopping) (size₁ size₂ : String)
    (out : v1beta1.PizzaSpec) :
    v1beta1.Convert_restaurant_PizzaSpec_To_v1beta1_PizzaSpec
        { Toppings := toppings, Size := size₁ } out
      = v1beta1.Convert_restaurant_PizzaSpec_To_v1beta1_PizzaSpec
        { Toppings := toppings, Size := size₂ } out ∧
    (v1beta1.Convert_restaurant_PizzaSpec_To_v1beta1_PizzaSpec
        { Toppings := toppings, Size := size₁ } out).2 = none :=
  ⟨rfl, rfl⟩

/-! ## The error of the listing -/

/-- C16, as stated, fails: the lister's `List` returns an error (and no objects), the plugin
is ready, the request is of kind restaurant Pizza, and `Validate` returns nil. -/
theorem failed_listing_is_accepted :
    (fixtures.failingLister.List labels.Selector.Everything).2
        = some (fmt.Errorf "cache listing failed") ∧
      (fixtures.readyPluginWith fixtures.failingLister).Handler.WaitForReady = true ∧
      (fixtures.pizzaRequest "quattro"
        (.Pizza (fixtures.candidate "quattro" "S"))).GetKind.GroupKind
        = restaurant.Kind "Pizza" ∧
      (fixtures.readyPluginWith fixtures.failingLister).Validate
        (fixtures.pizzaRequest "quattro" (.Pizza (fixtures.candidate "quattro" "S")))
        = .ok none := by
  refine ⟨rfl, rfl, ?_, ?_⟩ <;> decide

/-- C16, amended: for ready plugins and a Pizza-kind request, `Validate` decides on the
listing that `List` returns and on nothing else of the `List` result: two listers returning
the same listing give the same result whatever error each returns with it, and an empty
listing is accepted, with or without an error. -/
theorem validate_ignores_list_error (d₁ d₂ : pizzasize.PizzaSizePlugin)
    (a : admission.Attributes) (lister₁ lister₂ : listers.PizzaLister)
    (readyFunc₁ readyFunc₂ : Unit → Bool) (pizza : restaurant.Pizza)
    (hKind : a.GetKind.GroupKind = restaurant.Kind "Pizza")
    (hReady₁ : d₁.Handler.readyFunc = some readyFunc₁) (hSync₁ : readyFunc₁ () = true)
    (hReady₂ : d₂.Handler.readyFunc = some readyFunc₂) (hSync₂ : readyFunc₂ () = true)
    (hLister₁ : d₁.pizzaLister = some lister₁) (hLister₂ : d₂.pizzaLister = some lister₂)
    (hObj : a.GetObject = runtime.Object.Pizza pizza)
    (hSame : (lister₁.List labels.Selector.Everything).1
      = (lister₂.List labels.Selector.Everything).1) :
    d₁.Validate a = d₂.Validate a ∧
      ((lister₁.List labels.Selector.Everything).1 = [] → d₁.Validate a = .ok none) := by
  have h₁ :=
    pizzasize.Validate_ready d₁ a lister₁ readyFunc₁ pizza hKind hReady₁ hSync₁ hLister₁ hObj
  have h₂ :=
    pizzasize.Validate_ready d₂ a lister₂ readyFunc₂ pizza hKind hReady₂ hSync₂ hLister₂ hObj
  constructor
  · rw [h₁, h₂, hSame]
  · intro hEmpty
    rw [h₁, hEmpty]
    rfl

/-- C16, amended, at a concrete input: the listing S, M returned with an error decides a
candidate of size S like the same listing returned without one (a rejection), and the failed
listing without objects accepts it. -/
theorem validate_ignores_list_error_witness :
    (fixtures.readyPluginWith (fixtures.listerWithError fixtures.listingSM)).Validate
        (fixtures.pizzaRequest "quattro" (.Pizza (fixtures.candidate "quattro" "S")))
      = (fixtures.readyPluginWith (fixtures.listerOf fixtures.listingSM)).Validate
        (fixtures.pizzaRequest "quattro" (.Pizza (fixtures.candidate "quattro" "S"))) ∧
    (fixtures.readyPluginWith fixtures.failingLister).Validate
        (fixtures.pizzaRequest "quattro" (.Pizza (fixtures.candidate "quattro" "S")))
      = .ok none :=
  ⟨(validate_ignores_list_error
      (fixtures.readyPluginWith (fixtures.listerWithError fixtures.listingSM))
      (fixtures.readyPluginWith (fixtures.listerOf fixtures.listingSM))
      (fixtures.pizzaRequest "quattro" (.Pizza (fixtures.candidate "quattro" "S")))
      (fixtures.listerWithError fixtures.listingSM) (fixtures.listerOf fixtures.listingSM)
      (fun _ => true) (fun _ => true) (fixtures.candidate "quattro" "S")
      (by decide) rfl rfl rfl rfl rfl rfl rfl rfl).1,
   (validate_ignores_list_error
      (fixtures.readyPluginWith fixtures.failingLister)
      (fixtures.readyPluginWith fixtures.failingLister)
      (fixtures.pizzaRequest "quattro" (.Pizza (fixtures.candidate "quattro" "S")))
      fixtures.failingLister fixtures.failingLister
      (fun _ => true) (fun _ => true) (fixtures.candidate "quattro" "S")
      (by decide) rfl rfl rfl rfl rfl rfl rfl rfl).2 rfl⟩

/-! ## The order of the listing -/

/-- C17: for ready plugins and a Pizza-kind request, two listings that are permutations of
each other give the same result of `Validate`: the same decision and, on a conflict, the same
error with the same size in its message. -/
theorem validate_independent_of_listing_order (d₁ d₂ : pizzasize.PizzaSizePlugin)
    (a : admission.Attributes) (lister₁ lister₂ : listers.PizzaLister)
    (readyFunc₁ readyFunc₂ : Unit → Bool) (pizza : restaurant.Pizza)
    (hKind : a.GetKind.GroupKind = restaurant.Kind "Pizza")
    (hReady₁ : d₁.Handler.readyFunc = some readyFunc₁) (hSync₁ : readyFunc₁ () = true)
    (hReady₂ : d₂.Handler.readyFunc = some readyFunc₂) (hSync₂ : readyFunc₂ () = true)
    (hLister₁ : d₁.pizzaLister = some lister₁) (hLister₂ : d₂.pizzaLister = some lister₂)
    (hObj : a.GetObject = runtime.Object.Pizza pizza)
    (hPerm : ((lister₁.List labels.Selector.Everything).1).Perm
      (lister₂.List labels.Selector.Everything).1) :
    d₁.Validate a = d₂.Validate a := by
  rw [pizzasize.Validate_ready d₁ a lister₁ readyFunc₁ pizza hKind hReady₁ hSync₁ hLister₁ hObj,
    pizzasize.Validate_ready d₂ a lister₂ readyFunc₂ pizza hKind hReady₂ hSync₂ hLister₂ hObj]
  exact pizzasize.scan_perm a pizza _ _ hPerm

/-- C17 at a concrete input: the listings S, M and M, S decide a candidate of size M alike,
with the rejection that names M. -/
theorem validate_independent_of_listing_order_witness :
    (fixtures.pluginOf fixtures.listingSM true).Validate
        (fixtures.pizzaRequest "quattro" (.Pizza (fixtures.candidate "quattro" "M")))
      = (fixtures.pluginOf fixtures.listingMS true).Validate
        (fixtures.pizzaRequest "quattro" (.Pizza (fixtures.candidate "quattro" "M"))) ∧
    (fixtures.pluginOf fixtures.listingMS true).Validate
        (fixtures.pizzaRequest "quattro" (.Pizza (fixtures.candidate "quattro" "M")))
      = .ok (some (admission.NewForbidden
          (fixtures.pizzaRequest "quattro" (.Pizza (fixtures.candidate "quattro" "M")))
          (fmt.Errorf "size already present: M"))) :=
  ⟨validate_independent_of_listing_order
      (fixtures.pluginOf fixtures.listingSM true) (fixtures.pluginOf fixtures.listingMS true)
      (fixtures.pizzaRequest "quattro" (.Pizza (fixtures.candidate "quattro" "M")))
      (fixtures.listerOf fixtures.listingSM) (fixtures.listerOf fixtures.listingMS)
      (fun _ => true) (fun _ => true) (fixtures.candidate "quattro" "M")
      (by decide) rfl rfl rfl rfl rfl rfl rfl
      (List.Perm.swap (fixtures.cached "salami" "M") (fixtures.cached "margherita" "S") []),
   by decide⟩

/-! ## The frame of the conversion functions -/

/-- C18: both conversion functions append: after the call the output's toppings are the
prior toppings followed by one copy (same `Name`, same `Quantity`) of each input topping in
input order; `Convert_restaurant_PizzaSpec_To_v1beta1_PizzaSpec` changes nothing else of the
output, and `Convert_v1beta1_PizzaSpec_To_restaurant_PizzaSpec` changes nothing else but
`Size`, which becomes "Medium". -/
theorem conversions_append_to_output (wire : v1beta1.PizzaSpec) (out : restaurant.PizzaSpec)
    (canonical : restaurant.PizzaSpec) (wireOut : v1beta1.PizzaSpec) :
    ((v1beta1.Convert_v1beta1_PizzaSpec_To_restaurant_PizzaSpec wire out).1 =
        { out with
          Toppings := out.Toppings ++ wire.Toppings.map (fun top =>
            ({ Name := top.Name, Quantity := top.Quantity } : restaurant.PizzaTopping)),
          Size := "Medium" } ∧
      (v1beta1.Convert_v1beta1_PizzaSpec_To_restaurant_PizzaSpec wire out).1.Toppings.take
          out.Toppings.length = out.Toppings) ∧
    ((v1beta1.Convert_restaurant_PizzaSpec_To_v1beta1_PizzaSpec canonical wireOut).1 =
        { wireOut with
          Toppings := wireOut.Toppings ++ canonical.Toppings.map (fun top =>
            ({ Name := top.Name, Quantity := top.Quantity } : v1beta1.PizzaTopping)) } ∧
      (v1beta1.Convert_restaurant_PizzaSpec_To_v1beta1_PizzaSpec canonical wireOut).1.Toppings.take
          wireOut.Toppings.length = wireOut.Toppings) := by
  rw [v1beta1.toRestaurant_eq, v1beta1.toV1beta1_eq]
  simp
